import Mathlib

/-!
Verification of the Sink Your Time timer session engine.

This file is a shallow embedding of the core logic of the repository:
the zustand timer store (`src/stores/timerStore.ts`, current revision as
bundled in `src/main.tsx`, the one providing `saveCurrentSession` that the
`Timer` component imports), the session validator
(`src/utils/performance.ts`), the settings store
(`src/stores/settingsStore.ts`, current revision), the completion handler
(`handleTimerComplete` in `src/components/Timer.tsx`) and the analytics
aggregator (`analyticsData` in `src/components/Analytics.tsx`).

JavaScript numbers are modelled as `Int` (all quantities involved are
integral seconds, milliseconds or minute counts), `Date` values as `Nat`
timestamps, and the analytics minute values as `Rat` (they divide
milliseconds by 60000).  Asynchronous persistence is modelled by a `dbOk`
flag saying whether the `sessionService.create` / `settingsService.update`
call succeeds; a function that can throw returns `Except String`.
-/

namespace SinkYourTime

/-- The three timer phases: `"work" | "short_break" | "long_break"`. -/
inductive TimerMode where
  | work
  | short_break
  | long_break
  deriving DecidableEq, Repr

/-- `Category` as read by the engine and the analytics aggregator:
`{id, name}` (the `projectId` back-reference is not consulted by the
embedded code). -/
structure Category where
  id : String
  name : String
  deriving DecidableEq, Repr

/-- `Project` restricted to the fields the embedded code reads:
`{id, name, color, categories}`. -/
structure Project where
  id : String
  name : String
  color : String
  categories : List Category
  deriving DecidableEq, Repr

/-- `TimerSession` sans `id` (the shape handed to `sessionService.create`).
`startTime`/`endTime` are `Date` values, modelled as `Nat` timestamps. -/
structure SessionData where
  projectId : String
  categoryId : String
  type : TimerMode
  plannedDuration : Int
  actualDuration : Int
  startTime : Nat
  endTime : Nat
  completed : Bool
  deriving DecidableEq, Repr

/-- `secondsToMilliseconds` from `src/utils/performance.ts`. -/
def secondsToMilliseconds (seconds : Int) : Int :=
  seconds * 1000

/-- The `{isValid, errors}` object returned by `validateSessionData`. -/
structure ValidationResult where
  isValid : Bool
  errors : List String
  deriving DecidableEq, Repr

/-- `validateSessionData` from `src/utils/performance.ts`.  The checks are
performed in source order; `!session.projectId` is JavaScript falsiness,
which for the string fields means emptiness.  The `!session.startTime`
check always passes here because `startTime` is a `Date` object (always
truthy) in every call site, and the `type` membership check always passes
because `TimerMode` has exactly the three recognized kinds. -/
def validateSessionData (session : SessionData) : ValidationResult :=
  let errors : List String := []
  let errors := if session.projectId = "" then errors ++ ["Missing projectId"] else errors
  let errors := if session.categoryId = "" then errors ++ ["Missing categoryId"] else errors
  let errors := if session.plannedDuration ≤ 0 then errors ++ ["Invalid plannedDuration"] else errors
  let errors := if session.actualDuration < 0 then errors ++ ["Invalid actualDuration"] else errors
  { isValid := errors.length = 0, errors := errors }

/-- The `userSettings` JSON object read from `localStorage` by
`resetTimer` and `setMode`; each duration field may be absent. -/
structure StoredSettings where
  workDuration : Option Int
  shortBreakDuration : Option Int
  longBreakDuration : Option Int
  deriving DecidableEq, Repr

/-- JavaScript `a || b` for a possibly-absent number: falls back to the
default when the value is `undefined` or `0` (both falsy). -/
def jsOrInt (v : Option Int) (dflt : Int) : Int :=
  match v with
  | none => dflt
  | some v => if v = 0 then dflt else v

/-- The stored-settings field consulted for each mode. -/
def storedDuration (settings : StoredSettings) : TimerMode → Option Int
  | .work => settings.workDuration
  | .short_break => settings.shortBreakDuration
  | .long_break => settings.longBreakDuration

/-- The hard-coded fallback minutes (25 / 5 / 15) in `resetTimer`/`setMode`. -/
def defaultDuration : TimerMode → Int
  | .work => 25
  | .short_break => 5
  | .long_break => 15

/-- The `duration` computation shared by `resetTimer` and `setMode`:
`(settings.xxxDuration || default) * 60` seconds for the given mode. -/
def modeDuration (settings : StoredSettings) (mode : TimerMode) : Int :=
  jsOrInt (storedDuration settings mode) (defaultDuration mode) * 60

/-- The zustand timer store state (`TimerState` plus the two optional
selections), from `src/stores/timerStore.ts`. -/
structure TimerStoreState where
  isRunning : Bool
  currentMode : TimerMode
  timeLeft : Int
  totalTime : Int
  currentProject : Option Project
  currentCategory : Option Category
  completedPomodoros : Int
  sessionStartTime : Option Nat
  deriving DecidableEq, Repr

/-- The store's initial state: idle `work` mode at 25 minutes. -/
def initialTimerState : TimerStoreState :=
  { isRunning := false
    currentMode := .work
    timeLeft := 25 * 60
    totalTime := 25 * 60
    currentProject := none
    currentCategory := none
    completedPomodoros := 0
    sessionStartTime := none }

/-- `startTimer` (current revision): when not running, sets
`isRunning := true` and `sessionStartTime := state.sessionStartTime || new Date()`,
preserving an existing start time when resuming. -/
def startTimer (now : Nat) (state : TimerStoreState) : TimerStoreState :=
  if !state.isRunning then
    { state with
        isRunning := true
        sessionStartTime := some (state.sessionStartTime.getD now) }
  else
    state

/-- `pauseTimer`: sets `isRunning := false` and nothing else. -/
def pauseTimer (state : TimerStoreState) : TimerStoreState :=
  { state with isRunning := false }

/-- `resetTimer`: recomputes the duration for the current mode from the
`localStorage` settings, stops the timer and clears the session start. -/
def resetTimer (settings : StoredSettings) (state : TimerStoreState) : TimerStoreState :=
  { state with
      isRunning := false
      timeLeft := modeDuration settings state.currentMode
      totalTime := modeDuration settings state.currentMode
      sessionStartTime := none }

/-- `setMode`: switches mode, recomputes the duration from the
`localStorage` settings, forces idle and clears the session start. -/
def setMode (settings : StoredSettings) (mode : TimerMode) (state : TimerStoreState) :
    TimerStoreState :=
  { state with
      currentMode := mode
      timeLeft := modeDuration settings mode
      totalTime := modeDuration settings mode
      isRunning := false
      sessionStartTime := none }

/-- `setProject`. -/
def setProject (project : Project) (state : TimerStoreState) : TimerStoreState :=
  { state with currentProject := some project }

/-- `setCategory`. -/
def setCategory (category : Category) (state : TimerStoreState) : TimerStoreState :=
  { state with currentCategory := some category }

/-- `tick`: decrements `timeLeft` by one only while running with time
remaining. -/
def tick (state : TimerStoreState) : TimerStoreState :=
  if state.isRunning ∧ state.timeLeft > 0 then
    { state with timeLeft := state.timeLeft - 1 }
  else
    state

/-- `updateTimeLeft`: stores the given number unconditionally. -/
def updateTimeLeft (time : Int) (state : TimerStoreState) : TimerStoreState :=
  { state with timeLeft := time }

/-- `updateTotalTime`: stores the given number unconditionally. -/
def updateTotalTime (time : Int) (state : TimerStoreState) : TimerStoreState :=
  { state with totalTime := time }

/-- `incrementPomodoros`. -/
def incrementPomodoros (state : TimerStoreState) : TimerStoreState :=
  { state with completedPomodoros := state.completedPomodoros + 1 }

/-- `resetPomodoros`. -/
def resetPomodoros (state : TimerStoreState) : TimerStoreState :=
  { state with completedPomodoros := 0 }

/-- `clearCurrentSession`. -/
def clearCurrentSession (state : TimerStoreState) : TimerStoreState :=
  { state with sessionStartTime := none, isRunning := false }

/-- The `Omit<TimerSession, "id">` record literal built identically inside
`completeSession` and `saveCurrentSession`. -/
def buildSession (project : Project) (category : Category) (start now : Nat)
    (state : TimerStoreState) : SessionData :=
  { projectId := project.id
    categoryId := category.id
    type := state.currentMode
    plannedDuration := secondsToMilliseconds state.totalTime
    actualDuration := secondsToMilliseconds (state.totalTime - state.timeLeft)
    startTime := start
    endTime := now
    completed := state.timeLeft = 0 }

/-- `completeSession` (current revision).  Returns the new store state and
the session record persisted by `sessionService.create` (`none` when
nothing was persisted).  When project, category and start time are all
present it builds and validates the session; a validation failure logs and
returns early (before the final `set`), otherwise the record is created
(a create failure is caught and logged) and the final `set` stops the
timer and clears the session start.  When context is missing it only
warns and runs the final `set`.  The function never throws. -/
def completeSession (now : Nat) (dbOk : Bool) (state : TimerStoreState) :
    TimerStoreState × Option SessionData :=
  match state.currentProject, state.currentCategory, state.sessionStartTime with
  | some project, some category, some start =>
    let session := buildSession project category start now state
    if (validateSessionData session).isValid then
      ({ state with isRunning := false, sessionStartTime := none },
        if dbOk then some session else none)
    else
      (state, none)
  | _, _, _ =>
    ({ state with isRunning := false, sessionStartTime := none }, none)

/-- `saveCurrentSession` (manual save).  Throws (modelled by
`Except.error`) when the start time or the project/category selection is
missing, when validation fails, or when the database create fails; on
success returns the cleared state together with the persisted record. -/
def saveCurrentSession (now : Nat) (dbOk : Bool) (state : TimerStoreState) :
    Except String (TimerStoreState × SessionData) :=
  match state.sessionStartTime with
  | none => .error "No active session to save"
  | some start =>
    match state.currentProject, state.currentCategory with
    | some project, some category =>
      let session := buildSession project category start now state
      let validation := validateSessionData session
      if validation.isValid then
        if dbOk then
          .ok ({ state with sessionStartTime := none, isRunning := false }, session)
        else
          .error "Error saving session"
      else
        .error ("Session validation failed: " ++ String.intercalate ", " validation.errors)
    | _, _ => .error "Please select a project and category before saving"

/-- The theme preference. -/
inductive Theme where
  | light
  | dark
  | system
  deriving DecidableEq, Repr

/-- The `UserSettings` singleton. -/
structure UserSettings where
  workDuration : Int
  shortBreakDuration : Int
  longBreakDuration : Int
  longBreakInterval : Int
  audioEnabled : Bool
  notificationsEnabled : Bool
  autoStartBreaks : Bool
  theme : Theme
  deriving DecidableEq, Repr

/-- `DEFAULT_SETTINGS` from `src/stores/settingsStore.ts`. -/
def DEFAULT_SETTINGS : UserSettings :=
  { workDuration := 25
    shortBreakDuration := 5
    longBreakDuration := 15
    longBreakInterval := 4
    audioEnabled := true
    notificationsEnabled := true
    autoStartBreaks := false
    theme := .system }

/-- A `Partial<UserSettings>` update object: every field optional. -/
structure PartialSettings where
  workDuration : Option Int := none
  shortBreakDuration : Option Int := none
  longBreakDuration : Option Int := none
  longBreakInterval : Option Int := none
  audioEnabled : Option Bool := none
  notificationsEnabled : Option Bool := none
  autoStartBreaks : Option Bool := none
  theme : Option Theme := none
  deriving DecidableEq, Repr

/-- The spread merge `{ ...state.settings, ...updates }`. -/
def mergeSettings (current : UserSettings) (updates : PartialSettings) : UserSettings :=
  { workDuration := updates.workDuration.getD current.workDuration
    shortBreakDuration := updates.shortBreakDuration.getD current.shortBreakDuration
    longBreakDuration := updates.longBreakDuration.getD current.longBreakDuration
    longBreakInterval := updates.longBreakInterval.getD current.longBreakInterval
    audioEnabled := updates.audioEnabled.getD current.audioEnabled
    notificationsEnabled := updates.notificationsEnabled.getD current.notificationsEnabled
    autoStartBreaks := updates.autoStartBreaks.getD current.autoStartBreaks
    theme := updates.theme.getD current.theme }

/-- The settings store state together with its two external effects: the
`localStorage` mirror (`userSettings` key) and the theme applied to the
document root. -/
structure SettingsStoreState where
  settings : UserSettings
  isLoading : Bool
  error : Option String
  localCache : Option UserSettings
  appliedTheme : Option Theme
  deriving DecidableEq, Repr

/-- `updateSettings` from `src/stores/settingsStore.ts` (current
revision); `dbOk` says whether `settingsService.update` succeeds.  On
success the merged settings go to the in-memory state and to
`localStorage`; on failure the merged settings still go to `localStorage`
(and the theme is still applied) but only the error message is written to
the in-memory state. -/
def updateSettings (updates : PartialSettings) (dbOk : Bool) (st : SettingsStoreState) :
    SettingsStoreState :=
  if dbOk then
    let newSettings := mergeSettings st.settings updates
    { st with
        settings := newSettings
        isLoading := false
        error := none
        appliedTheme := match updates.theme with | some t => some t | none => st.appliedTheme
        localCache := some newSettings }
  else
    let newSettings := mergeSettings st.settings updates
    { st with
        localCache := some newSettings
        appliedTheme := match updates.theme with | some t => some t | none => st.appliedTheme
        error := some "Failed to save settings to database, but local changes were applied"
        isLoading := false }

/-- `handleTimerComplete` from `src/components/Timer.tsx`, restricted to
its state effect: it awaits `completeSession`, then, when the completed
mode was `work`, increments the pomodoro count and switches to
`long_break` exactly when `(completedPomodoros + 1) % settings.longBreakInterval === 0`
(the component reads the pre-increment render value), else `short_break`;
after a break it switches back to `work`.  `settings` is the settings
store value, `stored` the `localStorage` mirror read by `setMode`; toast,
sound, notification and the delayed auto-start are UI effects outside the
store state. -/
def handleTimerComplete (settings : UserSettings) (stored : StoredSettings) (now : Nat)
    (dbOk : Bool) (state : TimerStoreState) : TimerStoreState × Option SessionData :=
  let afterComplete := completeSession now dbOk state
  if state.currentMode = .work then
    let afterIncrement := incrementPomodoros afterComplete.1
    let shouldTakeLongBreak := (state.completedPomodoros + 1) % settings.longBreakInterval = 0
    (setMode stored (if shouldTakeLongBreak then .long_break else .short_break) afterIncrement,
      afterComplete.2)
  else
    (setMode stored .work afterComplete.1, afterComplete.2)

/-- The sequence of timer modes visited along `n` consecutive timer
completions, starting from the given state (each completion is handled by
`handleTimerComplete`). -/
def completionModes (settings : UserSettings) (stored : StoredSettings) (now : Nat)
    (dbOk : Bool) : Nat → TimerStoreState → List TimerMode
  | 0, state => [state.currentMode]
  | n + 1, state =>
    state.currentMode ::
      completionModes settings stored now dbOk n (handleTimerComplete settings stored now dbOk state).1

/-- A `StoredSettings` value with no field set (fresh `localStorage`). -/
def emptyStoredSettings : StoredSettings :=
  { workDuration := none, shortBreakDuration := none, longBreakDuration := none }

/-- The invariant of claim C7: `0 <= timeLeft <= totalTime`. -/
def TimerInvariant (state : TimerStoreState) : Prop :=
  0 ≤ state.timeLeft ∧ state.timeLeft ≤ state.totalTime

instance (state : TimerStoreState) : Decidable (TimerInvariant state) := by
  unfold TimerInvariant
  infer_instance

/-- All durations present in the stored settings are nonnegative (every
real settings write stores positive minute counts). -/
def StoredSettings.Nonneg (settings : StoredSettings) : Prop :=
  (∀ v, settings.workDuration = some v → 0 ≤ v) ∧
  (∀ v, settings.shortBreakDuration = some v → 0 ≤ v) ∧
  (∀ v, settings.longBreakDuration = some v → 0 ≤ v)

/-! ### The analytics aggregator (`analyticsData` in `src/components/Analytics.tsx`) -/

/-- `session.actualDuration / (1000 * 60)` — a session's length in
minutes, the quantity every analytics reduction accumulates. -/
def sessionMinutes (session : SessionData) : ℚ :=
  (session.actualDuration : ℚ) / (1000 * 60)

/-- `workSessions = sessions.filter(s => s.type === "work")`. -/
def workSessions (sessions : List SessionData) : List SessionData :=
  sessions.filter (fun s => s.type = .work)

/-- `totalFocusedTime`, the reduce over the work sessions (the source
variable before `Math.round` is applied in the returned object). -/
def totalFocusedTime (sessions : List SessionData) : ℚ :=
  ((workSessions sessions).map sessionMinutes).sum

/-- The `totalTime` reduce inside `projectBreakdown` for one project: the
minutes of the work sessions whose `projectId` matches. -/
def projectTotalTime (sessions : List SessionData) (project : Project) : ℚ :=
  (((workSessions sessions).filter (fun s => s.projectId = project.id)).map sessionMinutes).sum

/-- JavaScript `Math.round`. -/
def jsRound (q : ℚ) : ℤ :=
  ⌊q + 1 / 2⌋

/-- One `projectBreakdown` entry. -/
structure ProjectAgg where
  name : String
  time : ℤ
  sessions : Nat
  color : String
  completionRate : ℚ
  deriving DecidableEq, Repr

/-- `projectBreakdown`: one entry per project with the rounded minutes,
filtered to the entries with positive time.  The source additionally
sorts by descending time, which only permutes entries. -/
def projectBreakdown (projects : List Project) (sessions : List SessionData) :
    List ProjectAgg :=
  (projects.map (fun project =>
    let projectSessions := (workSessions sessions).filter (fun s => s.projectId = project.id)
    { name := project.name
      time := jsRound (projectTotalTime sessions project)
      sessions := projectSessions.length
      color := project.color
      completionRate :=
        if projectSessions.length > 0 then
          ((projectSessions.filter (fun s => s.completed)).length : ℚ) / projectSessions.length * 100
        else 0 })).filter (fun p => p.time > 0)

/-- One value of the `categoryMap`; the `id` field is the map key
(`category.id`), the rest is the stored object `{name, time, sessions, completed}`. -/
structure CategoryAgg where
  id : String
  name : String
  time : ℚ
  sessions : Nat
  completed : Nat
  deriving DecidableEq, Repr

/-- The `categoryMap.get`-or-`set` update for one resolved session: the
(unique) existing entry for the key accumulates time, session count and
completion count; otherwise a fresh entry is appended (JavaScript `Map`
preserves insertion order). -/
def insertCategorySession (cid cname : String) (t : ℚ) (isCompleted : Bool) :
    List CategoryAgg → List CategoryAgg
  | [] => [{ id := cid, name := cname, time := t, sessions := 1,
             completed := if isCompleted then 1 else 0 }]
  | e :: rest =>
    if e.id = cid then
      { e with
          time := e.time + t
          sessions := e.sessions + 1
          completed := e.completed + (if isCompleted then 1 else 0) } :: rest
    else
      e :: insertCategorySession cid cname t isCompleted rest

/-- The body of the `workSessions.forEach` building the `categoryMap`: a
session only contributes when its project is found in the project list
and its category is found inside that project. -/
def categoryStep (projects : List Project) (acc : List CategoryAgg) (session : SessionData) :
    List CategoryAgg :=
  match projects.find? (fun p => p.id = session.projectId) with
  | none => acc
  | some project =>
    match project.categories.find? (fun c => c.id = session.categoryId) with
    | none => acc
    | some category =>
      insertCategorySession category.id category.name (sessionMinutes session) session.completed acc

/-- `Array.from(categoryMap.values())`: the accumulated per-category
objects, in insertion order. -/
def categoryMapValues (projects : List Project) (sessions : List SessionData) :
    List CategoryAgg :=
  (workSessions sessions).foldl (categoryStep projects) []

/-- One displayed `categoryBreakdown` entry. -/
structure CategoryEntry where
  name : String
  time : ℤ
  sessions : Nat
  completed : Nat
  completionRate : ℚ
  deriving DecidableEq, Repr

/-- `categoryBreakdown`: the map values with rounded minutes and a
completion rate, filtered to positive time.  The source additionally
sorts by descending time, which only permutes entries. -/
def categoryBreakdown (projects : List Project) (sessions : List SessionData) :
    List CategoryEntry :=
  ((categoryMapValues projects sessions).map (fun cat =>
    { name := cat.name
      time := jsRound cat.time
      sessions := cat.sessions
      completed := cat.completed
      completionRate :=
        if cat.sessions > 0 then (cat.completed : ℚ) / cat.sessions * 100 else 0 })).filter
    (fun cat => cat.time > 0)

/-- A work session only enters the category aggregation when its project
and, inside it, its category are found (`find?` mirrors the source's
`projects.find` / `categories.find`). -/
def SessionResolves (projects : List Project) (session : SessionData) : Prop :=
  ∃ project, projects.find? (fun p => p.id = session.projectId) = some project ∧
    (project.categories.find? (fun c => c.id = session.categoryId)).isSome = true

/-! ### Concrete data used by witnesses and counterexamples -/

/-- A sample category. -/
def exampleCategory : Category :=
  { id := "c1", name := "Deep Work" }

/-- A sample project owning `exampleCategory`. -/
def exampleProject : Project :=
  { id := "p1", name := "Thesis", color := "#3b82f6", categories := [exampleCategory] }

/-- A mid-session state: 900 of 1500 seconds left, selection and start
time present. -/
def manualSaveExampleState : TimerStoreState :=
  { initialTimerState with
      timeLeft := 900
      totalTime := 1500
      currentProject := some exampleProject
      currentCategory := some exampleCategory
      sessionStartTime := some 0 }

/-- A running state whose session would fail validation
(`plannedDuration = 0`), with full context present. -/
def invalidCompleteState : TimerStoreState :=
  { initialTimerState with
      isRunning := true
      timeLeft := 0
      totalTime := 0
      currentProject := some exampleProject
      currentCategory := some exampleCategory
      sessionStartTime := some 0 }

/-- A stored-settings value whose work duration is literally `0`. -/
def zeroWorkSettings : StoredSettings :=
  { workDuration := some 0, shortBreakDuration := none, longBreakDuration := none }

/-- The settings-store state holding the defaults, empty cache. -/
def settingsState0 : SettingsStoreState :=
  { settings := DEFAULT_SETTINGS
    isLoading := false
    error := none
    localCache := none
    appliedTheme := none }

/-- The partial update setting the work duration to 30 minutes. -/
def workTo30 : PartialSettings :=
  { workDuration := some 30 }

/-- One completed 25-minute work session on `exampleProject`/`exampleCategory`. -/
def exampleSessions : List SessionData :=
  [{ projectId := "p1", categoryId := "c1", type := .work, plannedDuration := 1500000,
     actualDuration := 1500000, startTime := 0, endTime := 1500000, completed := true }]

/-- The sample project after its only category was removed with
`deleteCategory` (which deletes the category record but not the sessions
referencing it), so `exampleSessions` still points at the now-missing
category `c1`. -/
def deletedCategoryProject : Project :=
  { id := "p1", name := "Thesis", color := "#3b82f6", categories := [] }

/-! ### Helper lemmas -/

/-- `completeSession` never changes the mode, the pomodoro count or the
two time fields of the store. -/
lemma completeSession_fst_fields (now : Nat) (dbOk : Bool) (state : TimerStoreState) :
    (completeSession now dbOk state).1.currentMode = state.currentMode ∧
    (completeSession now dbOk state).1.completedPomodoros = state.completedPomodoros ∧
    (completeSession now dbOk state).1.timeLeft = state.timeLeft ∧
    (completeSession now dbOk state).1.totalTime = state.totalTime := by
  unfold completeSession
  split
  · dsimp only
    split
    · exact ⟨rfl, rfl, rfl, rfl⟩
    · exact ⟨rfl, rfl, rfl, rfl⟩
  · exact ⟨rfl, rfl, rfl, rfl⟩

/-! ### The claims -/

/-- Claim C1: `startTimer` on a paused mid-session state (`isRunning`
false, `sessionStartTime` set) preserves the existing session start, and
`startTimer` on an idle state with no session start stamps the current
time. -/
theorem claim_C1 (state : TimerStoreState) (now : Nat) :
    (∀ t, state.isRunning = false → state.sessionStartTime = some t →
      (startTimer now state).sessionStartTime = some t) ∧
    (state.isRunning = false → state.sessionStartTime = none →
      (startTimer now state).sessionStartTime = some now) := by
  constructor
  · intro t hrun hstart
    simp [startTimer, hrun, hstart]
  · intro hrun hstart
    simp [startTimer, hrun, hstart]

/-- Witness for C1: resuming from a pause taken with start time 5 keeps 5;
a fresh start at time 7 records 7. -/
theorem claim_C1_witness :
    (startTimer 7 { initialTimerState with sessionStartTime := some 5 }).sessionStartTime =
      some 5 ∧
    (startTimer 7 initialTimerState).sessionStartTime = some 7 :=
  ⟨(claim_C1 { initialTimerState with sessionStartTime := some 5 } 7).1 5 rfl rfl,
    (claim_C1 initialTimerState 7).2 rfl rfl⟩

/-- Claim C4: when the project, the category or the session start time is
missing, a manual save raises one of the two descriptive errors and never
returns a persisted session. -/
theorem claim_C4 (state : TimerStoreState) (now : Nat) (dbOk : Bool)
    (h : state.currentProject = none ∨ state.currentCategory = none ∨
      state.sessionStartTime = none) :
    (saveCurrentSession now dbOk state = .error "No active session to save" ∨
      saveCurrentSession now dbOk state =
        .error "Please select a project and category before saving") ∧
    ∀ cleared saved, saveCurrentSession now dbOk state ≠ .ok (cleared, saved) := by
  rcases hp : state.currentProject with _ | p <;>
    rcases hc : state.currentCategory with _ | c <;>
      rcases hst : state.sessionStartTime with _ | start <;>
        simp [saveCurrentSession, hp, hc, hst] at h ⊢

/-- Witness for C4: the initial store state (nothing selected, no session
start) is rejected with a message and persists nothing. -/
theorem claim_C4_witness :
    (saveCurrentSession 0 true initialTimerState = .error "No active session to save" ∨
      saveCurrentSession 0 true initialTimerState =
        .error "Please select a project and category before saving") ∧
    ∀ cleared saved, saveCurrentSession 0 true initialTimerState ≠ .ok (cleared, saved) :=
  claim_C4 initialTimerState 0 true (Or.inl rfl)

/-- Claim C5: when the project, the category or the session start time is
missing, automatic completion persists nothing and only stops the timer
and clears the session start; being a total function into a plain pair
(no `Except`), it never throws. -/
theorem claim_C5 (state : TimerStoreState) (now : Nat) (dbOk : Bool)
    (h : state.currentProject = none ∨ state.currentCategory = none ∨
      state.sessionStartTime = none) :
    completeSession now dbOk state =
      ({ state with isRunning := false, sessionStartTime := none }, none) := by
  rcases hp : state.currentProject with _ | p <;>
    rcases hc : state.currentCategory with _ | c <;>
      rcases hst : state.sessionStartTime with _ | start <;>
        simp [completeSession, hp, hc, hst] at h ⊢

/-- Witness for C5: automatic completion on the initial state persists
nothing and merely clears the running flag and the session start. -/
theorem claim_C5_witness :
    completeSession 0 true initialTimerState =
      ({ initialTimerState with isRunning := false, sessionStartTime := none }, none) :=
  claim_C5 initialTimerState 0 true (Or.inl rfl)

/-- Claim C3: with project, category and session start present, the
session record a manual save builds (and, on success, persists) has
`actualDuration = (totalTime - timeLeft) * 1000` milliseconds and
`completed = (timeLeft == 0)`; in particular with `timeLeft = 900` and
`totalTime = 1500` the save succeeds with `actualDuration = 600000` and
`completed = false`. -/
theorem claim_C3 :
    (∀ (state : TimerStoreState) (project : Project) (category : Category) (start now : Nat)
        (dbOk : Bool),
      state.currentProject = some project → state.currentCategory = some category →
      state.sessionStartTime = some start →
        (buildSession project category start now state).actualDuration =
          (state.totalTime - state.timeLeft) * 1000 ∧
        (buildSession project category start now state).completed =
          decide (state.timeLeft = 0) ∧
        ∀ cleared saved, saveCurrentSession now dbOk state = .ok (cleared, saved) →
          saved = buildSession project category start now state) ∧
    ∃ cleared saved, saveCurrentSession 1000 true manualSaveExampleState = .ok (cleared, saved) ∧
      saved.actualDuration = 600000 ∧ saved.completed = false := by
  constructor
  · intro state project category start now dbOk hp hc hst
    refine ⟨rfl, rfl, ?_⟩
    intro cleared saved hok
    unfold saveCurrentSession at hok
    rw [hst, hp, hc] at hok
    dsimp only at hok
    split at hok
    · split at hok
      · rw [Except.ok.injEq, Prod.mk.injEq] at hok
        exact hok.2.symm
      · exact absurd hok (by simp)
    · exact absurd hok (by simp)
  · exact ⟨_, _, rfl, rfl, rfl⟩

/-- Witness for C3: the mid-session example state instantiates the
universal part (600 remaining seconds become 600000 milliseconds, not yet
completed). -/
theorem claim_C3_witness :
    (buildSession exampleProject exampleCategory 0 1000 manualSaveExampleState).actualDuration =
      (manualSaveExampleState.totalTime - manualSaveExampleState.timeLeft) * 1000 ∧
    (buildSession exampleProject exampleCategory 0 1000 manualSaveExampleState).completed =
      decide (manualSaveExampleState.timeLeft = 0) :=
  ⟨(claim_C3.1 manualSaveExampleState exampleProject exampleCategory 0 1000 true rfl rfl rfl).1,
    (claim_C3.1 manualSaveExampleState exampleProject exampleCategory 0 1000 true rfl rfl rfl).2.1⟩

/-- Counterexample to C10: on a running state with full context whose
session fails validation (`plannedDuration = 0`), `completeSession`
returns early: `isRunning` stays `true` and `sessionStartTime` stays set,
so not every invocation ends with the session terminated in memory. -/
theorem claim_C10_counterexample :
    (completeSession 1000 true invalidCompleteState).1.isRunning = true ∧
    (completeSession 1000 true invalidCompleteState).1.sessionStartTime = some 0 ∧
    (completeSession 1000 true invalidCompleteState).2 = none := by
  decide

/-- Claim C10 (amended): every invocation of `completeSession` whose
constructed session passes validation — and every invocation with
missing project/category/start-time, persistence failure included — ends
with `isRunning = false` and `sessionStartTime` cleared; only the
validation-failure branch returns early leaving both untouched. -/
theorem claim_C10_amended (now : Nat) (dbOk : Bool) (state : TimerStoreState)
    (h : ∀ project category start,
      state.currentProject = some project → state.currentCategory = some category →
      state.sessionStartTime = some start →
      (validateSessionData (buildSession project category start now state)).isValid = true) :
    (completeSession now dbOk state).1.isRunning = false ∧
    (completeSession now dbOk state).1.sessionStartTime = none := by
  rcases hp : state.currentProject with _ | p <;>
    rcases hc : state.currentCategory with _ | c <;>
      rcases hst : state.sessionStartTime with _ | start <;>
        simp [completeSession, hp, hc, hst]
  simp [h p c start hp hc hst]

/-- Witness for C10 (amended): on the valid mid-session example state,
automatic completion ends not running with the session start cleared,
even when the database write fails. -/
theorem claim_C10_witness :
    (completeSession 1000 false manualSaveExampleState).1.isRunning = false ∧
    (completeSession 1000 false manualSaveExampleState).1.sessionStartTime = none :=
  claim_C10_amended 1000 false manualSaveExampleState
    (by
      intro project category start hp hc hst
      rw [show manualSaveExampleState.currentProject = some exampleProject from rfl,
        Option.some.injEq] at hp
      rw [show manualSaveExampleState.currentCategory = some exampleCategory from rfl,
        Option.some.injEq] at hc
      rw [show manualSaveExampleState.sessionStartTime = some 0 from rfl,
        Option.some.injEq] at hst
      subst hp; subst hc; subst hst
      decide)

/-- Claim C2: completing a running timer in `work` mode increments the
pomodoro count and moves to `long_break` exactly when the new count is a
multiple of `longBreakInterval`, else to `short_break`; completing a
break moves back to `work`.  With the default interval 4, four completed
work sessions yield the mode sequence
work, short_break, work, short_break, work, short_break, work, long_break. -/
theorem claim_C2 :
    (∀ (settings : UserSettings) (stored : StoredSettings) (now : Nat) (dbOk : Bool)
        (state : TimerStoreState),
      (state.currentMode = .work →
        (handleTimerComplete settings stored now dbOk state).1.completedPomodoros =
          state.completedPomodoros + 1 ∧
        (handleTimerComplete settings stored now dbOk state).1.currentMode =
          (if (state.completedPomodoros + 1) % settings.longBreakInterval = 0 then
            TimerMode.long_break
          else TimerMode.short_break)) ∧
      (state.currentMode ≠ .work →
        (handleTimerComplete settings stored now dbOk state).1.currentMode = .work)) ∧
    completionModes DEFAULT_SETTINGS emptyStoredSettings 0 true 7 initialTimerState =
      [.work, .short_break, .work, .short_break, .work, .short_break, .work, .long_break] := by
  constructor
  · intro settings stored now dbOk state
    constructor
    · intro hmode
      have hfields := completeSession_fst_fields now dbOk state
      constructor
      · simp [handleTimerComplete, hmode, setMode, incrementPomodoros, hfields.2.1]
      · simp [handleTimerComplete, hmode, setMode]
    · intro hmode
      simp only [handleTimerComplete, if_neg hmode, setMode]
  · rfl

/-- Witness for C2: the first completion from the initial state (mode
`work`, count 0, interval 4) increments the count to 1 and selects a
short break; a completion in `short_break` mode returns to `work`. -/
theorem claim_C2_witness :
    ((handleTimerComplete DEFAULT_SETTINGS emptyStoredSettings 0 true
        initialTimerState).1.completedPomodoros =
      initialTimerState.completedPomodoros + 1) ∧
    ((handleTimerComplete DEFAULT_SETTINGS emptyStoredSettings 0 true
        { initialTimerState with currentMode := .short_break }).1.currentMode = .work) :=
  ⟨((claim_C2.1 DEFAULT_SETTINGS emptyStoredSettings 0 true initialTimerState).1 rfl).1,
    (claim_C2.1 DEFAULT_SETTINGS emptyStoredSettings 0 true
      { initialTimerState with currentMode := .short_break }).2 (by decide)⟩

/-- Counterexample to C6: with a stored work duration of `0` minutes,
`setMode work` does not yield `timeLeft = 0 * 60`; the JavaScript `||`
fallback substitutes the 25-minute default instead. -/
theorem claim_C6_counterexample :
    zeroWorkSettings.workDuration = some 0 ∧
    (setMode zeroWorkSettings TimerMode.work initialTimerState).timeLeft = 1500 ∧
    (setMode zeroWorkSettings TimerMode.work initialTimerState).timeLeft ≠ 0 * 60 := by
  refine ⟨rfl, rfl, ?_⟩
  decide

/-- Claim C6 (amended): for every mode and every settings value whose
stored duration for that mode is present and nonzero, `setMode` sets
`timeLeft = totalTime = duration * 60`, stops the timer and clears the
session start; an absent or zero stored duration instead falls back to
the 25/5/15-minute defaults. -/
theorem claim_C6_amended (settings : StoredSettings) (mode : TimerMode)
    (state : TimerStoreState) (d : Int) (hd : storedDuration settings mode = some d)
    (hnz : d ≠ 0) :
    (setMode settings mode state).timeLeft = d * 60 ∧
    (setMode settings mode state).totalTime = d * 60 ∧
    (setMode settings mode state).isRunning = false ∧
    (setMode settings mode state).sessionStartTime = none := by
  have hdur : modeDuration settings mode = d * 60 := by
    simp [modeDuration, hd, jsOrInt, hnz]
  exact ⟨by simp [setMode, hdur], by simp [setMode, hdur], rfl, rfl⟩

/-- Witness for C6 (amended): a stored 30-minute work duration gives 1800
seconds on both time fields, idle, no session start. -/
theorem claim_C6_witness :
    (setMode { workDuration := some 30, shortBreakDuration := none, longBreakDuration := none }
      TimerMode.work initialTimerState).timeLeft = 30 * 60 ∧
    (setMode { workDuration := some 30, shortBreakDuration := none, longBreakDuration := none }
      TimerMode.work initialTimerState).totalTime = 30 * 60 ∧
    (setMode { workDuration := some 30, shortBreakDuration := none, longBreakDuration := none }
      TimerMode.work initialTimerState).isRunning = false ∧
    (setMode { workDuration := some 30, shortBreakDuration := none, longBreakDuration := none }
      TimerMode.work initialTimerState).sessionStartTime = none :=
  claim_C6_amended
    { workDuration := some 30, shortBreakDuration := none, longBreakDuration := none }
    TimerMode.work initialTimerState 30 rfl (by decide)

/-- Counterexample to C7: `0 ≤ timeLeft ≤ totalTime` holds in the initial
state but is not preserved by the store operation `updateTimeLeft`, which
stores any number unconditionally (here 2000 > totalTime = 1500). -/
theorem claim_C7_counterexample :
    TimerInvariant initialTimerState ∧
    ¬ TimerInvariant (updateTimeLeft 2000 initialTimerState) := by
  decide

/-- Claim C7 (amended): `0 ≤ timeLeft ≤ totalTime` holds initially and is
preserved by `startTimer`, `pauseTimer`, `tick`, `resetTimer` and
`setMode` (for stored settings with nonnegative durations),
`completeSession`, `incrementPomodoros` and `clearCurrentSession`; the
raw `updateTimeLeft`/`updateTotalTime` preserve it only when the new
value respects the bounds, which the UI's paired duration edit
(`updateTotalTime t` then `updateTimeLeft t` with `0 ≤ t`) does. -/
theorem claim_C7_amended :
    TimerInvariant initialTimerState ∧
    ∀ state : TimerStoreState, TimerInvariant state →
      (∀ now, TimerInvariant (startTimer now state)) ∧
      TimerInvariant (pauseTimer state) ∧
      TimerInvariant (tick state) ∧
      (∀ settings : StoredSettings, settings.Nonneg →
        TimerInvariant (resetTimer settings state) ∧
        ∀ mode, TimerInvariant (setMode settings mode state)) ∧
      (∀ now dbOk, TimerInvariant (completeSession now dbOk state).1) ∧
      TimerInvariant (incrementPomodoros state) ∧
      TimerInvariant (clearCurrentSession state) ∧
      (∀ t, 0 ≤ t → t ≤ state.totalTime → TimerInvariant (updateTimeLeft t state)) ∧
      (∀ t, state.timeLeft ≤ t → TimerInvariant (updateTotalTime t state)) ∧
      (∀ t, 0 ≤ t → TimerInvariant (updateTimeLeft t (updateTotalTime t state))) := by
  have key : ∀ (o : Option Int) (dflt : Int), 0 ≤ dflt → (∀ v, o = some v → 0 ≤ v) →
      0 ≤ jsOrInt o dflt * 60 := by
    intro o dflt hdflt ho
    rcases o with _ | v
    · simp only [jsOrInt]
      omega
    · have hv := ho v rfl
      simp only [jsOrInt]
      split <;> omega
  have hdur : ∀ (settings : StoredSettings), settings.Nonneg →
      ∀ mode, 0 ≤ modeDuration settings mode := by
    intro settings hs mode
    obtain ⟨hw, hsb, hlb⟩ := hs
    cases mode
    · exact key settings.workDuration 25 (by omega) hw
    · exact key settings.shortBreakDuration 5 (by omega) hsb
    · exact key settings.longBreakDuration 15 (by omega) hlb
  refine ⟨by decide, ?_⟩
  intro state hInv
  obtain ⟨h0, h1⟩ := hInv
  refine ⟨?_, ⟨h0, h1⟩, ?_, ?_, ?_, ⟨h0, h1⟩, ⟨h0, h1⟩, ?_, ?_, ?_⟩
  · intro now
    unfold startTimer
    split <;> exact ⟨h0, h1⟩
  · unfold tick TimerInvariant
    split
    · constructor <;> simp <;> omega
    · exact ⟨h0, h1⟩
  · intro settings hs
    have := hdur settings hs
    exact ⟨⟨this state.currentMode, le_refl _⟩, fun mode => ⟨this mode, le_refl _⟩⟩
  · intro now dbOk
    have hfields := completeSession_fst_fields now dbOk state
    exact ⟨hfields.2.2.1 ▸ h0, by rw [hfields.2.2.1, hfields.2.2.2]; exact h1⟩
  · intro t ht0 ht1
    exact ⟨ht0, ht1⟩
  · intro t ht
    exact ⟨h0, ht⟩
  · intro t ht
    exact ⟨ht, le_refl _⟩

/-- Witness for C7 (amended): instantiating the preservation statement at
the initial state: a tick keeps the invariant, as does the paired
duration edit to 100 seconds. -/
theorem claim_C7_witness :
    TimerInvariant (tick initialTimerState) ∧
    TimerInvariant (updateTimeLeft 100 (updateTotalTime 100 initialTimerState)) :=
  ⟨((claim_C7_amended.2 initialTimerState claim_C7_amended.1).2.2.1),
    ((claim_C7_amended.2 initialTimerState claim_C7_amended.1).2.2.2.2.2.2.2.2.2 100
      (by decide))⟩

/-- Counterexample to C8: updating the work duration to 30 while the
durable write fails leaves the in-memory settings at 25 — the update is
not applied to the in-memory settings, contrary to the claim (the merged
value 30 goes only to the `localStorage` cache). -/
theorem claim_C8_counterexample :
    (updateSettings workTo30 false settingsState0).settings.workDuration = 25 ∧
    (mergeSettings settingsState0.settings workTo30).workDuration = 30 ∧
    (updateSettings workTo30 false settingsState0).settings.workDuration ≠
      (mergeSettings settingsState0.settings workTo30).workDuration := by
  decide

/-- Claim C8 (amended): when the durable write fails, `updateSettings`
still writes the merged settings to the `localStorage` cache and surfaces
a warning instead of discarding the change; the in-memory settings state
is left unchanged on this path (the cache is preferred on the next
load). -/
theorem claim_C8_amended (updates : PartialSettings) (st : SettingsStoreState) :
    (updateSettings updates false st).localCache = some (mergeSettings st.settings updates) ∧
    (updateSettings updates false st).error =
      some "Failed to save settings to database, but local changes were applied" ∧
    (updateSettings updates false st).settings = st.settings := by
  refine ⟨?_, ?_, ?_⟩ <;> simp [updateSettings]

/-- Sums distribute over pointwise addition of mapped functions. -/
lemma sum_map_add {α : Type} (l : List α) (f g : α → ℚ) :
    (l.map (fun x => f x + g x)).sum = (l.map f).sum + (l.map g).sum := by
  induction l with
  | nil => simp
  | cons a t ih =>
    simp only [List.map_cons, List.sum_cons, ih]
    ring

/-- Summing an indicator of `x` over a list of keys counts the
occurrences of `x`. -/
lemma sum_if_eq (ids : List String) (x : String) (m : ℚ) :
    (ids.map (fun i => if x = i then m else 0)).sum = (ids.count x : ℚ) * m := by
  induction ids with
  | nil => simp
  | cons i t ih =>
    simp only [List.map_cons, List.sum_cons, ih, List.count_cons, beq_iff_eq]
    by_cases hx : x = i
    · simp only [if_pos hx, if_pos hx.symm]
      push_cast
      ring
    · have hix : ¬i = x := fun h => hx (Eq.symm h)
      simp only [if_neg hx, if_neg hix]
      push_cast
      ring

/-- Partitioning the work sessions by project: when every session's
`projectId` occurs among the (pairwise distinct) project ids, the
per-project filtered sums add up to the plain sum. -/
lemma project_sum_eq (projects : List Project) :
    ∀ l : List SessionData,
      (∀ s ∈ l, s.projectId ∈ projects.map Project.id) →
      (projects.map Project.id).Nodup →
      (projects.map
        (fun p => ((l.filter (fun s => s.projectId = p.id)).map sessionMinutes).sum)).sum
        = (l.map sessionMinutes).sum := by
  intro l
  induction l with
  | nil =>
    intro _ _
    simp
  | cons s rest ih =>
    intro hmem hnodup
    have hcount : (projects.map Project.id).count s.projectId = 1 :=
      List.count_eq_one_of_mem hnodup (hmem s (by simp))
    have hsplit : projects.map
        (fun p => (((s :: rest).filter (fun x => x.projectId = p.id)).map sessionMinutes).sum)
        = projects.map (fun p =>
            (if s.projectId = p.id then sessionMinutes s else 0)
            + ((rest.filter (fun x => x.projectId = p.id)).map sessionMinutes).sum) := by
      apply List.map_congr_left
      intro p _
      by_cases h : s.projectId = p.id <;> simp [List.filter_cons, h]
    rw [hsplit, sum_map_add]
    have hind : (projects.map (fun p => if s.projectId = p.id then sessionMinutes s else 0)).sum
        = ((projects.map Project.id).count s.projectId : ℚ) * sessionMinutes s := by
      rw [show (fun p => if s.projectId = p.id then sessionMinutes s else 0)
          = ((fun i => if s.projectId = i then sessionMinutes s else 0) ∘ Project.id) from rfl,
        ← List.map_map]
      exact sum_if_eq (projects.map Project.id) s.projectId (sessionMinutes s)
    rw [hind, hcount, ih (fun x hx => hmem x (List.mem_cons_of_mem _ hx)) hnodup]
    simp

/-- Inserting one resolved session into the category map adds exactly its
minutes to the total accumulated time. -/
lemma insert_sum (cid cname : String) (t : ℚ) (isCompleted : Bool) (acc : List CategoryAgg) :
    ((insertCategorySession cid cname t isCompleted acc).map CategoryAgg.time).sum
      = (acc.map CategoryAgg.time).sum + t := by
  induction acc with
  | nil => simp [insertCategorySession]
  | cons e rest ih =>
    by_cases h : e.id = cid
    · simp only [insertCategorySession, if_pos h, List.map_cons, List.sum_cons]
      ring
    · simp only [insertCategorySession, if_neg h, List.map_cons, List.sum_cons, ih]
      ring

/-- Folding the category-map construction over sessions that all resolve
accumulates exactly the sum of their minutes. -/
lemma fold_sum (projects : List Project) :
    ∀ l : List SessionData, (∀ s ∈ l, SessionResolves projects s) →
    ∀ acc : List CategoryAgg,
      ((l.foldl (categoryStep projects) acc).map CategoryAgg.time).sum
        = (acc.map CategoryAgg.time).sum + (l.map sessionMinutes).sum := by
  intro l
  induction l with
  | nil =>
    intro _ acc
    simp
  | cons s rest ih =>
    intro hres acc
    obtain ⟨project, hfind, hcat⟩ := hres s (by simp)
    obtain ⟨category, hcat⟩ := Option.isSome_iff_exists.mp hcat
    have hstep : categoryStep projects acc s =
        insertCategorySession category.id category.name (sessionMinutes s) s.completed acc := by
      simp [categoryStep, hfind, hcat]
    rw [List.foldl_cons, hstep,
      ih (fun x hx => hres x (List.mem_cons_of_mem _ hx)) _, insert_sum]
    simp only [List.map_cons, List.sum_cons]
    ring

/-- Counterexample to C9: a persisted work session whose category was
deleted (`deleteCategory` removes the category record without cascading
to the sessions referencing it) is skipped by the category fold, so the
category-breakdown total is 0 while the project-breakdown total and
`totalFocusedTime` are both 25 minutes — a 25-minute shortfall, far
beyond per-entry rounding, refuting the claimed identity for this
persisted session/project set. -/
theorem claim_C9_counterexample :
    ((categoryMapValues [deletedCategoryProject] exampleSessions).map CategoryAgg.time).sum = 0 ∧
    categoryBreakdown [deletedCategoryProject] exampleSessions = [] ∧
    ([deletedCategoryProject].map (projectTotalTime exampleSessions)).sum = 25 ∧
    totalFocusedTime exampleSessions = 25 ∧
    ((categoryMapValues [deletedCategoryProject] exampleSessions).map CategoryAgg.time).sum ≠
      totalFocusedTime exampleSessions := by
  have h0 : ((categoryMapValues [deletedCategoryProject] exampleSessions).map
      CategoryAgg.time).sum = 0 := rfl
  have htot : totalFocusedTime exampleSessions = 25 := by
    norm_num [totalFocusedTime, workSessions, exampleSessions, sessionMinutes]
  have hproj : ([deletedCategoryProject].map (projectTotalTime exampleSessions)).sum = 25 := by
    norm_num [projectTotalTime, workSessions, exampleSessions, deletedCategoryProject,
      sessionMinutes]
  refine ⟨h0, rfl, hproj, htot, ?_⟩
  rw [h0, htot]
  norm_num

/-- Claim C9 (amended): over sessions whose project and category
references all resolve against the (duplicate-free) project list, the
per-project times and the per-category times each add up exactly to
`totalFocusedTime`; the displayed breakdown entries are these quantities
rounded entry by entry.  Sessions orphaned by a category deletion (which
does not cascade to sessions) fall outside the hypothesis and drop out of
the category breakdown only. -/
theorem claim_C9_amended (projects : List Project) (sessions : List SessionData)
    (hres : ∀ s ∈ workSessions sessions, SessionResolves projects s)
    (hnodup : (projects.map Project.id).Nodup) :
    (projects.map (projectTotalTime sessions)).sum = totalFocusedTime sessions ∧
    ((categoryMapValues projects sessions).map CategoryAgg.time).sum =
      totalFocusedTime sessions := by
  have hmem : ∀ s ∈ workSessions sessions, s.projectId ∈ projects.map Project.id := by
    intro s hs
    obtain ⟨project, hfind, _⟩ := hres s hs
    have h1 := List.mem_of_find?_eq_some hfind
    have h2 := List.find?_some hfind
    simp only [decide_eq_true_eq] at h2
    exact h2 ▸ List.mem_map_of_mem Project.id h1
  constructor
  · exact project_sum_eq projects (workSessions sessions) hmem hnodup
  · simpa using fold_sum projects (workSessions sessions) hres []

/-- Witness for C9 (amended): one completed 25-minute work session on the
sample project and category; both breakdown sums equal the 25-minute
total. -/
theorem claim_C9_witness :
    ([exampleProject].map (projectTotalTime exampleSessions)).sum =
      totalFocusedTime exampleSessions ∧
    ((categoryMapValues [exampleProject] exampleSessions).map CategoryAgg.time).sum =
      totalFocusedTime exampleSessions :=
  claim_C9_amended [exampleProject] exampleSessions
    (by
      intro s hs
      simp only [workSessions, exampleSessions, List.filter_cons, List.filter_nil] at hs
      simp at hs
      subst hs
      exact ⟨exampleProject, rfl, rfl⟩)
    (by decide)

end SinkYourTime
